import Mathlib

/-!
Verification of the CNC-ToolHub speeds-and-feeds core against its design
specification.

The repository source under scrutiny is `src/src/main.py`, which contains the
GUI caller `GUI.update`, the RPM status classifier `GUI.get_rpm_status`, and
the wiring to the calculation engine (`FeedsAndSpeeds.calculate`), the
validator (`validate_machining_parameters`) and the rigidity lookup table
(`MACHINE_RIGIDITY_FACTORS`).  The engine, validator and tables live in
modules of this repository that are not part of the inspected sources; where a
claim depends on them they are modelled from the specification (each such
definition's doc comment starts with `Modelled from the spec:`).

Python floats are embedded as exact rationals (`ℚ`); float literals such as
`0.1` are read as the exact rationals of their decimal text, and `math.pi` is
embedded as the exact rational value of the IEEE-754 double that Python's
`math.pi` denotes.
-/

namespace CNCToolHub

/-- The status component of the classifier's result.  The Python code returns
the strings "danger", "warning", "good", "info"; they are embedded as an
enumeration. -/
inductive RpmStatus
  | danger
  | warning
  | good
  | info
deriving DecidableEq, Repr

/-- The message component of the classifier's result.  The Python code returns
formatted strings ("below minimum (... RPM)", "above maximum (... RPM)",
"near preferred (... RPM)", "approaching maximum", "near minimum",
"within safe range"); each distinct message is embedded as one constructor. -/
inductive RpmMsg
  | belowMinimum
  | aboveMaximum
  | nearPreferred
  | approachingMaximum
  | nearMinimum
  | withinSafeRange
deriving DecidableEq, Repr

/-- Embedding of `GUI.get_rpm_status` (src/src/main.py lines 139-162).  The
machine limits, read there from the machine box widgets, are passed as
arguments.  The code first checks the two danger conditions, then the
preferred-RPM tolerance (`preferred_tolerance = preferred_rpm * 0.1`), then
the two warning conditions, and falls through to info. -/
def get_rpm_status (rpm min_rpm preferred_rpm max_rpm : ℚ) : RpmStatus × RpmMsg :=
  if rpm < min_rpm then (.danger, .belowMinimum)
  else if rpm > max_rpm then (.danger, .aboveMaximum)
  else if |rpm - preferred_rpm| ≤ preferred_rpm * 0.1 then (.good, .nearPreferred)
  else if rpm > max_rpm * 0.9 then (.warning, .approachingMaximum)
  else if rpm < min_rpm * 1.1 then (.warning, .nearMinimum)
  else (.info, .withinSafeRange)

/-- The RPM classifier exactly as the specification words it (spec section
4.3), written independently of the source embedding so the two can be
compared: first match wins among `rpm < min_rpm`, `rpm > max_rpm`,
`|rpm − preferred_rpm| ≤ 0.10 × preferred_rpm`, `rpm > 0.90 × max_rpm`,
`rpm < 1.10 × min_rpm`, otherwise info. -/
def classify_spec (rpm min_rpm preferred_rpm max_rpm : ℚ) : RpmStatus × RpmMsg :=
  if rpm < min_rpm then (.danger, .belowMinimum)
  else if rpm > max_rpm then (.danger, .aboveMaximum)
  else if |rpm - preferred_rpm| ≤ 0.10 * preferred_rpm then (.good, .nearPreferred)
  else if rpm > 0.90 * max_rpm then (.warning, .approachingMaximum)
  else if rpm < 1.10 * min_rpm then (.warning, .nearMinimum)
  else (.info, .withinSafeRange)

/-- C1: the RPM status classifier evaluates exactly the spec's first-match
precedence (the source classifier agrees with the spec's classifier on every
input), and on the concrete limits min=1000, preferred=10000, max=20000 the
inputs 500, 25000, 9500, 19500, 1050, 5000 classify to danger/below-minimum,
danger/above-maximum, good/near-preferred, warning/approaching-maximum,
warning/near-minimum and info/within-safe-range respectively. -/
theorem c1_rpm_classifier_precedence :
    (∀ rpm min_rpm preferred_rpm max_rpm : ℚ,
      get_rpm_status rpm min_rpm preferred_rpm max_rpm
        = classify_spec rpm min_rpm preferred_rpm max_rpm) ∧
    get_rpm_status 500 1000 10000 20000 = (.danger, .belowMinimum) ∧
    get_rpm_status 25000 1000 10000 20000 = (.danger, .aboveMaximum) ∧
    get_rpm_status 9500 1000 10000 20000 = (.good, .nearPreferred) ∧
    get_rpm_status 19500 1000 10000 20000 = (.warning, .approachingMaximum) ∧
    get_rpm_status 1050 1000 10000 20000 = (.warning, .nearMinimum) ∧
    get_rpm_status 5000 1000 10000 20000 = (.info, .withinSafeRange) := by
  refine ⟨?_, ?_, ?_, ?_, ?_, ?_, ?_⟩ <;>
    first
      | (intro rpm min_rpm preferred_rpm max_rpm
         unfold get_rpm_status classify_spec
         split_ifs <;> first | rfl | linarith)
      | norm_num [get_rpm_status]

/-- The input fields of the calculation engine instance (spec section 3,
`MachiningInputs`); `GUI.update` (src/src/main.py lines 165-191) populates
exactly these fields on a fresh `FeedsAndSpeeds` before computing. -/
structure Inputs where
  diameter : ℚ
  flute_num : ℤ
  doc : ℚ
  woc : ℚ
  smm : ℚ
  mmpt : ℚ
  kc : ℚ
  hsm_enabled : Bool
  chip_thinning_enabled : Bool
  tool_stickout : ℚ
  rigidity_level : String
  material_type : Option String
deriving DecidableEq, Repr

/-- Fatal conditions of the engine and validator (spec section 7 error
taxonomy). -/
inductive CalcError
  | invalidInput (field : String)
  | invalidGeometry
deriving DecidableEq, Repr

/-- One record of the external rigidity lookup table
(`MACHINE_RIGIDITY_FACTORS`): spec section 6 gives its shape as a record of a
display name string and a numeric derating factor. -/
structure RigidityEntry where
  name : String
  factor : ℚ
deriving DecidableEq, Repr

/-- One record of the external material lookup table: spec section 6 gives its
shape as `(kc, sfm, smm, chip_load_mm, display_name)`. -/
structure MaterialEntry where
  kc : ℚ
  sfm : ℚ
  smm : ℚ
  chip_load : ℚ
  name : String
deriving DecidableEq, Repr

/-- The outputs one computation produces (spec section 3,
`MachiningOutputs`): rpm, feed, the secondary estimates, and the engine's own
warning list. -/
structure Outputs where
  rpm : ℚ
  feed : ℚ
  mrr : ℚ
  power : ℚ
  torque : ℚ
  warnings : List String
deriving DecidableEq, Repr

/-- The exact rational value of the IEEE-754 double `math.pi`
(884279719003555 / 2^48), the constant the Python engine divides by. -/
def pi_f64 : ℚ := 884279719003555 / 281474976710656

/-- Radial engagement ratio `woc / diameter` (spec glossary). -/
def engagement_ratio (i : Inputs) : ℚ := i.woc / i.diameter

/-- Modelled from the spec: the engine's effective feed per tooth
(spec section 4.1 step 2), from `FeedsAndSpeeds.calculate` which is not among
the inspected sources.  When `chip_thinning_enabled` and `hsm_enabled` hold
and the engagement ratio is below 0.5, the commanded feed per tooth is `mmpt`
scaled up by the inverse thinning factor; otherwise it is `mmpt` unchanged.
The spec (section 9) leaves the exact engagement-ratio-to-thinning-factor
relation configurable, so the inverse factor is an explicit parameter `ctf`
(assumed, where a claim needs it, to exceed 1 on engagement ratios in
(0, 0.5), per the spec's "asymptotically large as engagement goes to 0"). -/
def effective_mmpt (ctf : ℚ → ℚ) (i : Inputs) : ℚ :=
  if i.chip_thinning_enabled ∧ i.hsm_enabled ∧ engagement_ratio i < 1/2 then
    i.mmpt * ctf (engagement_ratio i)
  else i.mmpt

/-- Modelled from the spec: spindle speed, `rpm = (smm * 1000) / (pi * diameter)`
(spec section 4.1 step 1), with `pi` the engine's double-precision constant. -/
def rpm_of (i : Inputs) : ℚ := (i.smm * 1000) / (pi_f64 * i.diameter)

/-- Modelled from the spec: feed rate,
`feed = rpm * flute_num * effective_mmpt` (spec section 4.1 step 3). -/
def feed_of (ctf : ℚ → ℚ) (i : Inputs) : ℚ :=
  rpm_of i * (i.flute_num : ℚ) * effective_mmpt ctf i

/-- Modelled from the spec: material removal rate `doc * woc * feed`
(spec section 4.1 step 4). -/
def mrr_of (ctf : ℚ → ℚ) (i : Inputs) : ℚ := i.doc * i.woc * feed_of ctf i

/-- Modelled from the spec: cutting power from `kc`, the material removal rate
and a fixed unit-conversion constant (spec section 4.1 step 5). -/
def power_of (ctf : ℚ → ℚ) (i : Inputs) : ℚ := mrr_of ctf i * i.kc / 60000000

/-- Modelled from the spec: torque from power and angular speed, rpm converted
to radians per second (spec section 4.1 step 5). -/
def torque_of (ctf : ℚ → ℚ) (i : Inputs) : ℚ :=
  power_of ctf i * 1000 / (rpm_of i * 2 * pi_f64 / 60)

/-- Modelled from the spec: the engine's advisory warning list.  Chip thinning
detected without HSM is reported as a warning instead of corrected
(spec section 4.1 step 2); a rigidity exceedance appends a warning naming the
rigidity level (step 6; a missing rigidity key degrades, skipping the step,
per spec section 7); a material envelope violation appends a material warning
(step 7; a missing material key is treated as absent, spec section 6).  The
exact rigidity/material envelope relations are not visible in the inspected
material, so representative relations stand in for them. -/
def engine_warnings (rigidity_table : List (String × RigidityEntry))
    (material_table : List (String × MaterialEntry)) (i : Inputs) : List String :=
  (if i.chip_thinning_enabled ∧ ¬ i.hsm_enabled ∧ engagement_ratio i < 1/2 then
      ["Reduced engagement produces thin chips; enable HSM to compensate feed"]
    else []) ++
  (match rigidity_table.lookup i.rigidity_level with
    | some e =>
      if i.doc > e.factor * i.diameter then
        ["Depth of cut exceeds what the " ++ i.rigidity_level ++ " rigidity level permits"]
      else []
    | none => []) ++
  (match i.material_type with
    | some key =>
      match material_table.lookup key with
      | some m =>
        if i.smm > m.smm then
          ["Surface speed above the recommended envelope for " ++ m.name]
        else []
      | none => []
    | none => [])

/-- Modelled from the spec: the engine's compute operation
(`FeedsAndSpeeds.calculate`, not among the inspected sources; spec section
4.1).  Input validation first (zero/negative `diameter`, `flute_num`, `smm`,
`mmpt`, `kc` fail with `InvalidInput` naming the field; `woc > diameter`
fails with `InvalidGeometry`), then `rpm = smm*1000/(pi*diameter)`,
`feed = rpm * flute_num * effective_mmpt`, `mrr = doc * woc * feed`, power
from `kc` and mrr with a fixed conversion constant, torque from power and
angular speed.  Advisory warnings: the chip-thinning warning when thinning is
detected without HSM, the rigidity exceedance warning (a missing rigidity key
degrades: the step is skipped, spec section 7 `InvalidConfig` is fatal only to
that step), and the material envelope warning (a missing material key is
treated as absent, spec section 6).  The exact rigidity/material envelope
relations are not visible in the inspected material; representative relations
stand in for them. -/
def calculate (ctf : ℚ → ℚ) (rigidity_table : List (String × RigidityEntry))
    (material_table : List (String × MaterialEntry)) (i : Inputs) :
    Except CalcError Outputs :=
  if i.diameter ≤ 0 then .error (.invalidInput "diameter")
  else if i.flute_num ≤ 0 then .error (.invalidInput "flute_num")
  else if i.smm ≤ 0 then .error (.invalidInput "smm")
  else if i.mmpt ≤ 0 then .error (.invalidInput "mmpt")
  else if i.kc ≤ 0 then .error (.invalidInput "kc")
  else if i.woc > i.diameter then .error .invalidGeometry
  else
    .ok { rpm := rpm_of i, feed := feed_of ctf i, mrr := mrr_of ctf i,
          power := power_of ctf i, torque := torque_of ctf i,
          warnings := engine_warnings rigidity_table material_table i }

/-- A concrete inverse chip-thinning factor used by the witnesses: strictly
above 1 on engagement ratios in (0, 1/2) and asymptotically large as the
ratio goes to 0, as the spec requires of the configurable relation. -/
def ctf0 : ℚ → ℚ := fun r => 1 / (2 * r)

lemma ctf0_one_lt : ∀ r : ℚ, 0 < r → r < 1/2 → 1 < ctf0 r := by
  intro r h0 hhalf
  unfold ctf0
  rw [one_lt_div (by linarith)]
  linarith

/-- Concrete rigidity table fixture for the witnesses. -/
def rigidity_table0 : List (String × RigidityEntry) :=
  [("router", { name := "Hobby Router", factor := 1/2 }),
   ("vmc", { name := "Industrial VMC", factor := 1 })]

/-- Concrete material table fixture for the witnesses. -/
def material_table0 : List (String × MaterialEntry) :=
  [("aluminum", { kc := 800, sfm := 1000, smm := 300, chip_load := 1/10,
                  name := "Aluminum" })]

/-- Concrete valid input fixture: HSM and chip thinning on, engagement ratio
2/10 < 1/2. -/
def i0 : Inputs :=
  { diameter := 10, flute_num := 3, doc := 2, woc := 2, smm := 300, mmpt := 1/10,
    kc := 800, hsm_enabled := true, chip_thinning_enabled := true,
    tool_stickout := 30, rigidity_level := "vmc", material_type := some "aluminum" }

/-- The outputs the engine produces on `i0`. -/
def out0 : Outputs :=
  { rpm := rpm_of i0, feed := feed_of ctf0 i0, mrr := mrr_of ctf0 i0,
    power := power_of ctf0 i0, torque := torque_of ctf0 i0,
    warnings := engine_warnings rigidity_table0 material_table0 i0 }

/-- C2: whenever the engine's compute operation succeeds, it has set
`rpm = (smm * 1000) / (pi * diameter)` — exactly, in the rational model with
`pi` the engine's double-precision pi constant — and hence the value is
reproducible within 1e-9 relative tolerance of that formula. -/
theorem c2_rpm_formula (ctf : ℚ → ℚ) (rt : List (String × RigidityEntry))
    (mt : List (String × MaterialEntry)) (i : Inputs) (o : Outputs)
    (h : calculate ctf rt mt i = .ok o) :
    o.rpm = (i.smm * 1000) / (pi_f64 * i.diameter) ∧
    |o.rpm - (i.smm * 1000) / (pi_f64 * i.diameter)|
      ≤ 1/1000000000 * ((i.smm * 1000) / (pi_f64 * i.diameter)) := by
  unfold calculate at h
  split_ifs at h with h1 h2 h3 h4 h5 h6
  rw [Except.ok.injEq] at h
  subst h
  have hd : 0 < i.diameter := lt_of_not_le h1
  have hs : 0 < i.smm := lt_of_not_le h3
  have hrpm : (0:ℚ) < (i.smm * 1000) / (pi_f64 * i.diameter) := by
    apply div_pos (by linarith)
    exact mul_pos (by norm_num [pi_f64]) hd
  have he : rpm_of i = (i.smm * 1000) / (pi_f64 * i.diameter) := rfl
  refine ⟨he, ?_⟩
  dsimp only
  rw [he, sub_self, abs_zero]
  linarith

/-- C2 witness: the engine applied to the concrete valid input `i0`. -/
theorem c2_rpm_formula_witness :
    out0.rpm = (i0.smm * 1000) / (pi_f64 * i0.diameter) ∧
    |out0.rpm - (i0.smm * 1000) / (pi_f64 * i0.diameter)|
      ≤ 1/1000000000 * ((i0.smm * 1000) / (pi_f64 * i0.diameter)) :=
  c2_rpm_formula ctf0 rigidity_table0 material_table0 i0 out0
    (by norm_num [calculate, i0, out0])

/-- C3: the effective feed per tooth equals the supplied `mmpt` in every case
except when chip thinning and HSM are both enabled and `woc/diameter < 0.5`,
where it is strictly larger; in particular it equals `mmpt` whenever chip
thinning is disabled, and the compensation is a no-op whenever
`woc/diameter ≥ 0.5` regardless of the flags.  Stated under the data-model
validity constraints `diameter > 0`, `woc > 0`, `mmpt > 0` and the spec's
requirement that the configurable inverse thinning factor exceeds 1 on
engagement ratios in (0, 0.5). -/
theorem c3_chip_thinning (ctf : ℚ → ℚ) (i : Inputs)
    (hd : 0 < i.diameter) (hw : 0 < i.woc) (hm : 0 < i.mmpt)
    (hctf : ∀ r : ℚ, 0 < r → r < 1/2 → 1 < ctf r) :
    (¬ (i.chip_thinning_enabled = true ∧ i.hsm_enabled = true ∧
          engagement_ratio i < 1/2) →
        effective_mmpt ctf i = i.mmpt) ∧
    (i.chip_thinning_enabled = true → i.hsm_enabled = true →
        engagement_ratio i < 1/2 → i.mmpt < effective_mmpt ctf i) ∧
    (i.chip_thinning_enabled = false → effective_mmpt ctf i = i.mmpt) ∧
    (1/2 ≤ engagement_ratio i → effective_mmpt ctf i = i.mmpt) := by
  refine ⟨fun h => ?_, fun hct hhsm hr => ?_, fun h => ?_, fun h => ?_⟩
  · unfold effective_mmpt
    exact if_neg h
  · unfold effective_mmpt
    rw [if_pos ⟨hct, hhsm, hr⟩]
    have hr0 : 0 < engagement_ratio i := div_pos hw hd
    exact (lt_mul_iff_one_lt_right hm).2 (hctf _ hr0 hr)
  · unfold effective_mmpt
    apply if_neg
    rintro ⟨h1, -, -⟩
    rw [h] at h1
    exact Bool.false_ne_true h1
  · unfold effective_mmpt
    apply if_neg
    rintro ⟨-, -, hlt⟩
    linarith

/-- C3 witness: on `i0` (both flags on, engagement ratio 1/5) the strict
increase holds at a concrete input. -/
theorem c3_chip_thinning_witness : i0.mmpt < effective_mmpt ctf0 i0 :=
  (c3_chip_thinning ctf0 i0 (by norm_num [i0]) (by norm_num [i0])
    (by norm_num [i0]) ctf0_one_lt).2.1 rfl rfl
    (by norm_num [engagement_ratio, i0])

/-- C4: whenever the engine's compute operation succeeds, the feed rate it
sets satisfies `feed = rpm * flute_num * effective_mmpt` exactly, with
`effective_mmpt` the post-chip-thinning feed per tooth. -/
theorem c4_feed_formula (ctf : ℚ → ℚ) (rt : List (String × RigidityEntry))
    (mt : List (String × MaterialEntry)) (i : Inputs) (o : Outputs)
    (h : calculate ctf rt mt i = .ok o) :
    o.feed = o.rpm * (i.flute_num : ℚ) * effective_mmpt ctf i := by
  unfold calculate at h
  split_ifs at h
  rw [Except.ok.injEq] at h
  subst h
  rfl

/-- C4 witness: the feed relation at the concrete input `i0`. -/
theorem c4_feed_formula_witness :
    out0.feed = out0.rpm * (i0.flute_num : ℚ) * effective_mmpt ctf0 i0 :=
  c4_feed_formula ctf0 rigidity_table0 material_table0 i0 out0
    (by norm_num [calculate, i0, out0])

/-- C6: with `diameter = 0` — whatever the other fields hold — the engine's
compute operation fails with `InvalidInput` naming the diameter field; no
outputs (in particular no infinite or NaN rpm and no partial result) are
produced. -/
theorem c6_zero_diameter (ctf : ℚ → ℚ) (rt : List (String × RigidityEntry))
    (mt : List (String × MaterialEntry)) (i : Inputs) (h : i.diameter = 0) :
    calculate ctf rt mt i = .error (.invalidInput "diameter") := by
  unfold calculate
  rw [if_pos (le_of_eq h)]

/-- C6 witness: a concrete input with zero diameter. -/
theorem c6_zero_diameter_witness :
    calculate ctf0 rigidity_table0 material_table0 { i0 with diameter := 0 }
      = .error (.invalidInput "diameter") :=
  c6_zero_diameter ctf0 rigidity_table0 material_table0
    { i0 with diameter := 0 } rfl

/-- C7: with `woc > diameter` and every other validated field in range, the
engine's compute operation fails with `InvalidGeometry`; it never clamps
`woc` or proceeds with adjusted geometry. -/
theorem c7_woc_exceeds_diameter (ctf : ℚ → ℚ)
    (rt : List (String × RigidityEntry)) (mt : List (String × MaterialEntry))
    (i : Inputs) (hd : 0 < i.diameter) (hf : 0 < i.flute_num)
    (hs : 0 < i.smm) (hm : 0 < i.mmpt) (hk : 0 < i.kc)
    (hw : i.woc > i.diameter) :
    calculate ctf rt mt i = .error .invalidGeometry := by
  unfold calculate
  rw [if_neg (not_le.2 hd), if_neg (not_le.2 hf), if_neg (not_le.2 hs),
    if_neg (not_le.2 hm), if_neg (not_le.2 hk), if_pos hw]

/-- C7 witness: a concrete input with `woc = 12 > diameter = 10`. -/
theorem c7_woc_exceeds_diameter_witness :
    calculate ctf0 rigidity_table0 material_table0 { i0 with woc := 12 }
      = .error .invalidGeometry :=
  c7_woc_exceeds_diameter ctf0 rigidity_table0 material_table0
    { i0 with woc := 12 } (by norm_num [i0]) (by norm_num [i0])
    (by norm_num [i0]) (by norm_num [i0]) (by norm_num [i0])
    (by norm_num [i0])

/-- A Python float argument as the validator receives it: either a finite
value, embedded exactly as a rational, or one of the non-finite values (NaN,
positive or negative infinity). -/
inductive FloatVal
  | finite (x : ℚ)
  | nan
  | posInf
  | negInf
deriving DecidableEq, Repr

/-- Whether the float is finite. -/
def FloatVal.isFinite : FloatVal → Bool
  | .finite _ => true
  | _ => false

/-- The rational value of a finite float; the non-finite values, which the
validator rejects before reading them, map to 0. -/
def FloatVal.val : FloatVal → ℚ
  | .finite x => x
  | _ => 0

/-- Modelled from the spec: the individual sanity checks of
`validate_machining_parameters` (spec section 4.2), which is not among the
inspected sources: degenerate geometry (width of cut at or above the
diameter, near-zero radial engagement), feed implausibly high relative to the
tool diameter, depth of cut beyond a deflection-risk multiple of the
diameter, and a negative spindle speed.  The exact thresholds are not visible
in the inspected material; representative physically-motivated thresholds
stand in for them. -/
def validation_checks (rpm feed doc woc diameter : ℚ) : List String :=
  (if woc ≥ diameter then
      ["Full-slot engagement: width of cut reaches the tool diameter"]
    else []) ++
  (if woc < diameter / 20 then
      ["Near-zero radial engagement"]
    else []) ++
  (if feed > 1000 * diameter then
      ["Feed rate implausibly high relative to tool diameter"]
    else []) ++
  (if doc > 3 * diameter then
      ["Depth of cut exceeds the deflection-risk multiple of the diameter"]
    else []) ++
  (if rpm < 0 then
      ["Negative spindle speed"]
    else [])

/-- Modelled from the spec: the stateless validator
`validate_machining_parameters(rpm, feed, doc, woc, diameter)` (spec section
4.2), not among the inspected sources; its caller is src/src/main.py line
196.  Only non-finite input is rejected, with an `InvalidInput` condition;
every all-finite tuple is checkable and yields the warning list of the
triggered checks. -/
def validate_machining_parameters (rpm feed doc woc diameter : FloatVal) :
    Except CalcError (List String) :=
  if rpm.isFinite ∧ feed.isFinite ∧ doc.isFinite ∧ woc.isFinite ∧
      diameter.isFinite then
    .ok (validation_checks rpm.val feed.val doc.val woc.val diameter.val)
  else .error (.invalidInput "non-finite parameter")

/-- C8: the validator raises an error if and only if some argument is
non-finite, and that error is `InvalidInput`; every all-finite argument tuple
(zero, negative or out-of-range values included) yields a warning sequence
without failing; and when no check triggers the sequence is empty. -/
theorem c8_validator_totality (rpm feed doc woc diameter : FloatVal) :
    (validate_machining_parameters rpm feed doc woc diameter
        = .error (.invalidInput "non-finite parameter") ↔
      ¬ (rpm.isFinite ∧ feed.isFinite ∧ doc.isFinite ∧ woc.isFinite ∧
          diameter.isFinite)) ∧
    ((rpm.isFinite ∧ feed.isFinite ∧ doc.isFinite ∧ woc.isFinite ∧
        diameter.isFinite) →
      validate_machining_parameters rpm feed doc woc diameter
        = .ok (validation_checks rpm.val feed.val doc.val woc.val
            diameter.val)) ∧
    ((rpm.isFinite ∧ feed.isFinite ∧ doc.isFinite ∧ woc.isFinite ∧
        diameter.isFinite) →
      ¬ woc.val ≥ diameter.val →
      ¬ woc.val < diameter.val / 20 →
      ¬ feed.val > 1000 * diameter.val →
      ¬ doc.val > 3 * diameter.val →
      ¬ rpm.val < 0 →
      validate_machining_parameters rpm feed doc woc diameter = .ok []) := by
  unfold validate_machining_parameters
  split_ifs with hf
  · refine ⟨by simp [hf], fun _ => rfl, fun _ h1 h2 h3 h4 h5 => ?_⟩
    unfold validation_checks
    rw [if_neg h1, if_neg h2, if_neg h3, if_neg h4, if_neg h5]
    rfl
  · exact ⟨by simp [hf], fun h => absurd h hf, fun h => absurd h hf⟩

/-- C8 witness: a concrete all-finite tuple on which no check triggers yields
the empty warning sequence. -/
theorem c8_validator_totality_witness :
    validate_machining_parameters (.finite 12000) (.finite 600) (.finite 2)
      (.finite 3) (.finite 10) = .ok [] :=
  (c8_validator_totality (.finite 12000) (.finite 600) (.finite 2)
      (.finite 3) (.finite 10)).2.2
    (by simp [FloatVal.isFinite]) (by norm_num [FloatVal.val])
    (by norm_num [FloatVal.val]) (by norm_num [FloatVal.val])
    (by norm_num [FloatVal.val]) (by norm_num [FloatVal.val])

/-- The machine limits the caller reads from the machine box
(src/src/main.py lines 203-208; spec section 6). -/
structure MachineLimits where
  min_rpm : ℚ
  preferred_rpm : ℚ
  max_rpm : ℚ
  spindle_power : ℚ
deriving DecidableEq, Repr

/-- The ways `GUI.update` can abort: a raised engine condition, a raised
validator condition, or the unguarded dictionary access
`MACHINE_RIGIDITY_FACTORS[fs.rigidity_level]` (src/src/main.py line 217)
raising a key error.  A Python exception anywhere in `update` aborts the
whole method, so nothing after the raising line runs. -/
inductive UpdateError
  | calcFailed (e : CalcError)
  | validateFailed (e : CalcError)
  | rigidityKeyError (level : String)
deriving DecidableEq, Repr

/-- What one successful `GUI.update` run delivers: the dashboard update
`results_box.update_dashboard_values(fs, rpm_status, rpm_message, ...,
all_warnings, rigidity_info)` with the complete warning list
(src/src/main.py line 220), and the material-box display text that shows only
the first 3 warnings (line 224). -/
structure Delivered where
  rpm : ℚ
  feed : ℚ
  rpm_status : RpmStatus × RpmMsg
  all_warnings : List String
  rigidity_info : String × String
  displayed_warnings : List String
deriving DecidableEq, Repr

/-- Embedding of `GUI.update` (src/src/main.py lines 165-231), with the box
widgets' current values passed as the already-populated `Inputs` and the
machine limits.  It mirrors the source order: `fs.calculate()` (line 193),
`validate_machining_parameters(fs.rpm, fs.feed, fs.doc, fs.woc, fs.diameter)`
(line 196), `all_warnings = calculation_warnings + validation_warnings`
(line 197), `get_rpm_status(fs.rpm)` (line 200), the unguarded rigidity name
lookup (line 217), delivery of the complete list to the results box
(line 220), and the first-3 display text (line 224). -/
def update (ctf : ℚ → ℚ) (rigidity_table : List (String × RigidityEntry))
    (material_table : List (String × MaterialEntry)) (limits : MachineLimits)
    (i : Inputs) : Except UpdateError Delivered :=
  match calculate ctf rigidity_table material_table i with
  | .error e => .error (.calcFailed e)
  | .ok fs =>
    match validate_machining_parameters (.finite fs.rpm) (.finite fs.feed)
        (.finite i.doc) (.finite i.woc) (.finite i.diameter) with
    | .error e => .error (.validateFailed e)
    | .ok validation_warnings =>
      match rigidity_table.lookup i.rigidity_level with
      | none => .error (.rigidityKeyError i.rigidity_level)
      | some entry =>
        .ok { rpm := fs.rpm, feed := fs.feed,
              rpm_status := get_rpm_status fs.rpm limits.min_rpm
                limits.preferred_rpm limits.max_rpm,
              all_warnings := fs.warnings ++ validation_warnings,
              rigidity_info := (i.rigidity_level, entry.name),
              displayed_warnings := (fs.warnings ++ validation_warnings).take 3 }

/-- C5: whenever `GUI.update` delivers a result, the warning sequence handed
to the output consumer is the engine's warning list followed by the
validator's warning list, concatenated in order and complete (its length is
the sum of the two lengths — no truncation); the first-3 truncation shows up
only in the display text. -/
theorem c5_complete_warning_sequence (ctf : ℚ → ℚ)
    (rt : List (String × RigidityEntry)) (mt : List (String × MaterialEntry))
    (limits : MachineLimits) (i : Inputs) (fs : Outputs)
    (valW : List String) (d : Delivered)
    (hc : calculate ctf rt mt i = .ok fs)
    (hv : validate_machining_parameters (.finite fs.rpm) (.finite fs.feed)
        (.finite i.doc) (.finite i.woc) (.finite i.diameter) = .ok valW)
    (hu : update ctf rt mt limits i = .ok d) :
    d.all_warnings = fs.warnings ++ valW ∧
    d.all_warnings.length = fs.warnings.length + valW.length ∧
    d.displayed_warnings = d.all_warnings.take 3 := by
  unfold update at hu
  rw [hc] at hu
  simp only [hv] at hu
  cases hl : rt.lookup i.rigidity_level with
  | none => rw [hl] at hu; exact Except.noConfusion hu
  | some entry =>
    rw [hl] at hu
    rw [Except.ok.injEq] at hu
    subst hu
    exact ⟨rfl, (List.length_append _ _).symm ▸ rfl, rfl⟩

/-- Machine limits fixture for the witnesses. -/
def limits0 : MachineLimits :=
  { min_rpm := 1000, preferred_rpm := 10000, max_rpm := 20000,
    spindle_power := 2 }

/-- The validator's warning list on the outputs of `i0`. -/
def valW0 : List String :=
  validation_checks out0.rpm out0.feed i0.doc i0.woc i0.diameter

/-- What `update` delivers on `i0`. -/
def d0 : Delivered :=
  { rpm := out0.rpm, feed := out0.feed,
    rpm_status := get_rpm_status out0.rpm limits0.min_rpm
      limits0.preferred_rpm limits0.max_rpm,
    all_warnings := out0.warnings ++ valW0,
    rigidity_info := ("vmc", "Industrial VMC"),
    displayed_warnings := (out0.warnings ++ valW0).take 3 }

/-- C5 witness: the concrete run on `i0`. -/
theorem c5_complete_warning_sequence_witness :
    d0.all_warnings = out0.warnings ++ valW0 ∧
    d0.all_warnings.length = out0.warnings.length + valW0.length ∧
    d0.displayed_warnings = d0.all_warnings.take 3 :=
  c5_complete_warning_sequence ctf0 rigidity_table0 material_table0 limits0
    i0 out0 valW0 d0
    (by norm_num [calculate, i0, out0])
    (by simp [validate_machining_parameters, FloatVal.isFinite, FloatVal.val,
      valW0])
    (by
      norm_num [update, calculate, i0, out0, validate_machining_parameters,
        FloatVal.isFinite, FloatVal.val, valW0, d0, rigidity_table0]
      rfl)

/-- A rigidity table missing the level `i0` selects ("vmc"). -/
def rigidity_table1 : List (String × RigidityEntry) :=
  [("router", { name := "Hobby Router", factor := 1/2 })]

/-- The outputs the engine produces on `i0` with the table missing the key:
the rigidity advisory step degrades (no rigidity warning), everything else is
computed. -/
def out1 : Outputs :=
  { rpm := rpm_of i0, feed := feed_of ctf0 i0, mrr := mrr_of ctf0 i0,
    power := power_of ctf0 i0, torque := torque_of ctf0 i0,
    warnings := engine_warnings rigidity_table1 material_table0 i0 }

/-- C10 counterexample: with the rigidity level "vmc" missing from the
lookup table, the engine step itself still completes (it degrades to the
manually supplied values), but `GUI.update` hits the unguarded
`MACHINE_RIGIDITY_FACTORS[rigidity_level]` access and aborts with a key
error, so — contrary to the claim — result delivery does not complete. -/
theorem c10_counterexample :
    rigidity_table1.lookup i0.rigidity_level = none ∧
    calculate ctf0 rigidity_table1 material_table0 i0 = .ok out1 ∧
    update ctf0 rigidity_table1 material_table0 limits0 i0
      = .error (.rigidityKeyError "vmc") := by
  refine ⟨rfl, by norm_num [calculate, i0, out1], ?_⟩
  norm_num [update, calculate, i0, validate_machining_parameters,
    FloatVal.isFinite, FloatVal.val, rigidity_table1]
  rfl

/-- C10 as amended: when the rigidity level is missing from the rigidity
lookup table, the engine's compute step degrades to the manually supplied
values and completes, but the caller's unguarded rigidity-name lookup then
fails with a key error, so `GUI.update` aborts and result delivery does not
complete. -/
theorem c10_missing_rigidity_key_aborts (ctf : ℚ → ℚ)
    (rt : List (String × RigidityEntry)) (mt : List (String × MaterialEntry))
    (limits : MachineLimits) (i : Inputs) (fs : Outputs)
    (hc : calculate ctf rt mt i = .ok fs)
    (hmiss : rt.lookup i.rigidity_level = none) :
    update ctf rt mt limits i = .error (.rigidityKeyError i.rigidity_level) := by
  unfold update
  rw [hc]
  simp [validate_machining_parameters, FloatVal.isFinite, FloatVal.val, hmiss]

/-- C10 amended witness: the concrete run with the missing key. -/
theorem c10_missing_rigidity_key_aborts_witness :
    update ctf0 rigidity_table1 material_table0 limits0 i0
      = .error (.rigidityKeyError i0.rigidity_level) :=
  c10_missing_rigidity_key_aborts ctf0 rigidity_table1 material_table0
    limits0 i0 out1 (by norm_num [calculate, i0, out1]) rfl

/-- The engine instance as a value holder (spec sections 2-3): the caller
populates the input fields, and `compute` overwrites the output fields. -/
structure EngineState where
  inputs : Inputs
  rpm : ℚ
  feed : ℚ
  mrr : ℚ
  power : ℚ
  torque : ℚ
deriving DecidableEq, Repr

/-- Modelled from the spec: `compute()` as the stateful operation on the
engine instance (`FeedsAndSpeeds.calculate`, not among the inspected
sources; spec section 4.1 contract): it reads all input fields, overwrites
the output fields from them alone, and returns the warning list; warnings
are rebuilt from scratch, nothing accumulates, and on a fatal condition it
signals the error and produces no partial outputs. -/
def compute (ctf : ℚ → ℚ) (rigidity_table : List (String × RigidityEntry))
    (material_table : List (String × MaterialEntry)) (s : EngineState) :
    Except CalcError (EngineState × List String) :=
  match calculate ctf rigidity_table material_table s.inputs with
  | .error e => .error e
  | .ok o =>
    .ok ({ s with
            rpm := o.rpm, feed := o.feed, mrr := o.mrr,
            power := o.power, torque := o.torque }, o.warnings)

/-- C9: a successful `compute` leaves every input field unchanged, and
invoking `compute` again on the resulting state — inputs unchanged — yields
the identical output state and the identical warning sequence: outputs are a
pure function of the inputs at the moment of the call and nothing
accumulates across calls. -/
theorem c9_compute_idempotent (ctf : ℚ → ℚ)
    (rt : List (String × RigidityEntry)) (mt : List (String × MaterialEntry))
    (s s₂ : EngineState) (w : List String)
    (h : compute ctf rt mt s = .ok (s₂, w)) :
    s₂.inputs = s.inputs ∧ compute ctf rt mt s₂ = .ok (s₂, w) := by
  unfold compute at h ⊢
  cases hc : calculate ctf rt mt s.inputs with
  | error e =>
    rw [hc] at h
    exact Except.noConfusion h
  | ok o =>
    rw [hc] at h
    rw [Except.ok.injEq, Prod.mk.injEq] at h
    obtain ⟨h1, h2⟩ := h
    subst h1
    subst h2
    refine ⟨rfl, ?_⟩
    have hs : ({ s with
        rpm := o.rpm, feed := o.feed, mrr := o.mrr,
        power := o.power, torque := o.torque } : EngineState).inputs
        = s.inputs := rfl
    rw [hs, hc]

/-- Engine state fixture before the first computation. -/
def s0 : EngineState :=
  { inputs := i0, rpm := 0, feed := 0, mrr := 0, power := 0, torque := 0 }

/-- Engine state after computing on `s0`. -/
def s1 : EngineState :=
  { inputs := i0, rpm := rpm_of i0, feed := feed_of ctf0 i0,
    mrr := mrr_of ctf0 i0, power := power_of ctf0 i0,
    torque := torque_of ctf0 i0 }

/-- C9 witness: the concrete state holding `i0`. -/
theorem c9_compute_idempotent_witness :
    s1.inputs = s0.inputs ∧
    compute ctf0 rigidity_table0 material_table0 s1
      = .ok (s1, engine_warnings rigidity_table0 material_table0 i0) :=
  c9_compute_idempotent ctf0 rigidity_table0 material_table0 s0 s1
    (engine_warnings rigidity_table0 material_table0 i0)
    (by norm_num [compute, calculate, i0, s0, s1])

end CNCToolHub
